import Mathlib

/-!
# Verification of `prepare_testing.py` (Leidokos-Testing)

A shallow embedding of the test-preparation script of the Leidokos-Testing
repository (`src/python/prepare_testing.py`), together with theorems that
settle the specification's claims about it.

Modelling conventions:

* A Python attribute holding either a string or `None` is `Option String`;
  Python's `str(x)` on such an attribute is `pystr` (rendering `None` as the
  string `"None"`, as CPython does).
* Python truthiness of such an attribute (`if x:`) is `pyTruthy`: `None` and
  the empty string are falsy, every other string truthy.
* `hashlib.sha256(...)` with a sequence of `update` calls followed by
  `hexdigest()` is a deterministic function of the concatenated byte stream.
  We model the digest by the concatenated stream itself (`sha256hex` is the
  identity on the stream): equal streams give equal hex digests, and every
  digest-equality proved below depends only on stream equality, so the model
  is faithful up to SHA-256 collisions.
* Runtime failures (`AttributeError`, `TypeError`, `sys.exit`) are values of
  `PyError` inside `Except`.
-/

def pystr : Option String → String
  | none => "None"
  | some s => s

def pyTruthy : Option String → Bool
  | none => false
  | some s => s ≠ ""

/-- Model of `hashlib.sha256(stream).hexdigest()`: the digest is a
deterministic injective-up-to-collisions function of the full update stream,
so we represent it by the stream itself. -/
def sha256hex (stream : String) : String := stream

/-- Python runtime outcomes that abort the interpreter or raise. -/
inductive PyError where
  | attributeError
  | typeError
  | systemExit (msg : String)
deriving DecidableEq

/-- Reading a Python attribute that may be `None` where the source then
dereferences it (`x.field` with `x = None` raises `AttributeError`). -/
def getAttr {α : Type} : Option α → Except PyError α
  | none => .error .attributeError
  | some a => .ok a

/-- `class Property(Entity)`: a value plus the path it was attached to
(`Entity.attach`). -/
structure Property where
  value : String
  path : Option String := none
deriving DecidableEq

/-- `class FirmwareSketch(File)`: a filename plus the `Entity` path.  Note
that this class defines *no* `boards_url` or `boards_commit` attribute; the
source lines that read `firmware_sketch.boards_url` raise `AttributeError`. -/
structure FirmwareSketch where
  filename : String
  path : Option String := none
deriving DecidableEq

/-- `class KaleidoscopeModule`: url, commit and name, each initialized to
`None` in `__init__`. -/
structure KaleidoscopeModule where
  url : Option String := none
  commit : Option String := none
  name : Option String := none
deriving DecidableEq

/-- `KaleidoscopeModule.getDigest`: sha256 over `str(url)`, `str(commit)`,
`str(name)` fed through three `update` calls, i.e. over their
concatenation. -/
def KaleidoscopeModule.getDigest (m : KaleidoscopeModule) : String :=
  sha256hex (pystr m.url ++ pystr m.commit ++ pystr m.name)

/-- `class FirmwareBuild(Entity)` as a record of its attribute values.
`path` is the `Entity` path attribute, which stays unassigned (`none`) until
`setup`/`cloneFirmwareBuild` assign it. -/
structure FirmwareBuild where
  path : Option String := none
  modules : List KaleidoscopeModule := []
  module_digests : List String := []
  firmware_sketch : Option FirmwareSketch := none
  boards_url : Option String := none
  boards_commit : Option String := none
deriving DecidableEq

/-- `FirmwareBuild.checkValidity`: `False` iff no firmware sketch is set
(a `FirmwareSketch` object is always truthy). -/
def FirmwareBuild.checkValidity (fb : FirmwareBuild) : Bool :=
  fb.firmware_sketch.isSome

/-- `FirmwareBuild.containsModule`: whether a module with the same digest is
already present (`list.index` plus `try`/`except`). -/
def FirmwareBuild.containsModule (fb : FirmwareBuild)
    (new_module : KaleidoscopeModule) : Bool :=
  fb.module_digests.contains new_module.getDigest

/-- `FirmwareBuild.clone`: `FirmwareBuild(self)` copies the scalar fields and
aliases the two lists; the clone then replaces both lists by shallow copies
(`copy.copy`) and reassigns the (immutable, shareable) sketch reference.  As
a value the result equals the original except that the fresh object's
`Entity.path` attribute is unassigned. -/
def FirmwareBuild.clone (fb : FirmwareBuild) : FirmwareBuild :=
  { path := none
    modules := fb.modules
    module_digests := fb.module_digests
    firmware_sketch := fb.firmware_sketch
    boards_url := fb.boards_url
    boards_commit := fb.boards_commit }

/-- `FirmwareBuild.addModule`: when the new module's `name` attribute is
truthy and some existing module has an equal `name`, replace that module and
its digest in place at the first matching index; otherwise append both. -/
def FirmwareBuild.addModule (fb : FirmwareBuild)
    (new_module : KaleidoscopeModule) : FirmwareBuild :=
  let new_digest := new_module.getDigest
  let matchIdx : Option Nat :=
    if pyTruthy new_module.name then
      fb.modules.findIdx? (fun m => m.name == new_module.name)
    else none
  match matchIdx with
  | some i =>
      { fb with
        modules := fb.modules.set i new_module
        module_digests := fb.module_digests.set i new_digest }
  | none =>
      { fb with
        modules := fb.modules ++ [new_module]
        module_digests := fb.module_digests ++ [new_digest] }

/-- Python's `list.sort()` on strings: lexicographic ascending order (we use
Mathlib's linear order on `String`, which is the same code-point
lexicographic order CPython uses). -/
def pysort (l : List String) : List String :=
  List.insertionSort (· ≤ ·) l

/-- `FirmwareBuild.getDigest`: sha256 over the per-module digests sorted
ascending, then `str(boards_url)`, `str(boards_commit)` and the sketch
filename.  When no sketch is set the source dereferences
`self.firmware_sketch.filename` on `None` and raises; this is the `none`
case. -/
def FirmwareBuild.getDigest (fb : FirmwareBuild) : Option String :=
  fb.firmware_sketch.map fun sk =>
    let module_digests := fb.modules.map KaleidoscopeModule.getDigest
    sha256hex ((pysort module_digests).foldl (· ++ ·) ""
      ++ pystr fb.boards_url ++ pystr fb.boards_commit ++ sk.filename)

lemma pysort_perm_eq {l1 l2 : List String} (h : l1.Perm l2) :
    pysort l1 = pysort l2 := by
  apply List.eq_of_perm_of_sorted (r := (· ≤ · : String → String → Prop))
  · exact (List.perm_insertionSort _ l1).trans (h.trans (List.perm_insertionSort _ l2).symm)
  · exact List.sorted_insertionSort _ l1
  · exact List.sorted_insertionSort _ l2

/-- C6: for a Build Configuration with a sketch set, the canonical digest is
invariant under any permutation of the module sequence, because the
per-module digests are sorted ascending before being hashed together with
`boards_url`, `boards_commit` and the sketch filename. -/
theorem getDigest_perm_invariant (fb : FirmwareBuild)
    (ms2 : List KaleidoscopeModule)
    (hsk : fb.firmware_sketch.isSome)
    (hperm : List.Perm ms2 fb.modules) :
    FirmwareBuild.getDigest { fb with modules := ms2 } = fb.getDigest := by
  obtain ⟨sk, hsk⟩ := Option.isSome_iff_exists.mp hsk
  simp only [FirmwareBuild.getDigest, hsk, Option.map_some]
  have : pysort (ms2.map KaleidoscopeModule.getDigest)
      = pysort (fb.modules.map KaleidoscopeModule.getDigest) :=
    pysort_perm_eq (hperm.map _)
  simp [this]

def moduleCore : KaleidoscopeModule :=
  { url := some "A", commit := some "__NONE__", name := some "core" }

def modulePlugin : KaleidoscopeModule :=
  { url := some "B", commit := some "__NONE__", name := some "plugin" }

def buildTwoModules : FirmwareBuild :=
  { modules := [moduleCore, modulePlugin]
    module_digests := [moduleCore.getDigest, modulePlugin.getDigest]
    firmware_sketch := some { filename := "root.ino" } }

/-- Witness for C6: a concrete two-module configuration and its reversal
have equal canonical digests. -/
theorem getDigest_perm_invariant_witness :
    FirmwareBuild.getDigest
        { buildTwoModules with modules := [modulePlugin, moduleCore] }
      = buildTwoModules.getDigest :=
  getDigest_perm_invariant buildTwoModules [modulePlugin, moduleCore]
    (by decide) (by decide)

/-! ## Directory discovery (`find_files`, `find_file`, `find_unique_file`) -/

/-- The non-recursive view of one directory that `os.walk` yields for the
directory itself: subdirectory names (`dirs`) and regular-file names
(`files`). -/
structure Listing where
  dirs : List String := []
  files : List String := []
deriving DecidableEq

/-- `fnmatch.fnmatch(name, "*" + suffixStr)` — all patterns this script uses
are of this shape (`"*"` itself has the empty suffix and matches every
name). -/
def fnmatchStar (suffixStr : String) (name : String) : Bool :=
  List.isSuffixOf suffixStr.data name.data

/-- `os.path.join(root, name)` as used while walking from `root`. -/
def pyJoin (root name : String) : String := root ++ "/" ++ name

def external_specification_subdir_name : String := "__external__"
def test_trigger_basename : String := "__test__"
def firmware_sketch_pattern : String := "sketch.ino"
def test_driver_pattern : String := "driver.py"
def test_specification_pattern : String := "specification.yaml"

/-- `find_files(pattern, path)`: the regular files (only `files`, never
`dirs`) of the directory itself whose names match, as joined paths. -/
def find_files (suffixStr : String) (path : String) (L : Listing) :
    List String :=
  (L.files.filter (fnmatchStar suffixStr)).map (pyJoin path)

/-- `find_file(name, path)`: the joined path when `name` is among the
directory's regular files.  Directories are never found: `os.walk` reports
them in `dirs`, and the source tests only `name in files`. -/
def find_file (name : String) (path : String) (L : Listing) : Option String :=
  if L.files.contains name then some (pyJoin path name) else none

/-- `find_unique_file`: the first match if any; when several match, a warning
is printed and the first is used (warnings are not modelled). -/
def find_unique_file (suffixStr : String) (path : String) (L : Listing) :
    Option String :=
  (find_files suffixStr path L).head?

/-- `os.path.isdir` on an entry of the directory: true iff the name is one of
its subdirectories. -/
def isdir (name : String) (L : Listing) : Bool := L.dirs.contains name

/-! ## The `__external__` block of `TestNode.setup` (source lines 647-689) -/

/-- The `__external__` handling block of `TestNode.setup`; returns the source
path used for subsequent discovery.  Faithful notes: `find_file` searches
only regular files, so an `__external__` *sub-directory* is never detected
and the whole block is skipped; if `__external__` exists as a regular *file*,
`os.path.isdir` fails and the run exits; in the two-file branch the source
writes `all_files(1)` and `all_files(2)` — calling a list object — which
raises `TypeError`. -/
def externalBlock (path : String) (L : Listing) : Except PyError String :=
  match find_file external_specification_subdir_name path L with
  | none => .ok path
  | some external_specification_dir =>
      if ¬ isdir external_specification_subdir_name L then
        .error (.systemExit ("path \"" ++ path
          ++ "\" contains an external specification \""
          ++ external_specification_subdir_name
          ++ "\" that is not an path."))
      else
        let all_files := find_files "" path L
        if all_files.length > 2 then
          .error (.systemExit ("path \"" ++ path
            ++ "\" contains an external specification \""
            ++ external_specification_subdir_name
            ++ "\" and also additional files/directories appart from the test trigger ("
            ++ test_trigger_basename ++ "). Please make sure that either the "
            ++ "external specification or other files are found."))
        else if all_files.length == 2 then
          .error .typeError
        else
          .ok external_specification_dir

/-- C4 (evaluation of the code at the failing input): a directory that holds
the `__external__` subdirectory together with a stray regular file produces
no error at all and no redirection — `find_file` inspects only regular
files, so the external subdirectory is never detected and the structural
check is skipped entirely; the claim requires a fatal diagnostic naming the
path. -/
theorem externalBlock_misses_stray_file :
    externalBlock "root/t" { dirs := ["__external__"], files := ["stray.txt"] }
      = .ok "root/t" := rfl

/-! ## Global names (`TestNode.generateGlobalName`, source lines 395-406) -/

/-- A `Property` object together with its Python object identity (`id()`),
which the `is` operator compares. -/
structure PropObj where
  oid : Nat
  prop : Property
deriving DecidableEq

/-- The parent chain of a `TestNode`, with the `name` property object each
node holds — all that `generateGlobalName` reads. -/
inductive NameTree where
  | root (name : PropObj)
  | child (name : PropObj) (parent : NameTree)

def NameTree.name : NameTree → PropObj
  | .root n => n
  | .child n _ => n

/-- `TestNode.generateGlobalName`: `self.name is self.parent.name` is object
identity, modelled by `oid` equality. -/
def NameTree.generateGlobalName : NameTree → String
  | .root n => n.prop.value
  | .child n p =>
      if ¬ (n.oid == p.name.oid) then
        p.generateGlobalName ++ "." ++ n.prop.value
      else
        p.generateGlobalName

/-- C3: for a node with a parent, `generateGlobalName` returns the parent's
global name unchanged when the node's `name` Attributed Value is the very
same instance as the parent's, and returns the parent's global name plus
`"."` plus the node's own name value whenever the node holds its own
instance — with no assumption on the values, hence in particular even when
the own value is textually equal to the parent's. -/
theorem generateGlobalName_identity (p : NameTree) (n : PropObj) :
    (n.oid = p.name.oid →
      (NameTree.child n p).generateGlobalName = p.generateGlobalName)
    ∧ (n.oid ≠ p.name.oid →
      (NameTree.child n p).generateGlobalName
        = p.generateGlobalName ++ "." ++ n.prop.value) := by
  constructor <;> intro h <;> simp [NameTree.generateGlobalName, h]

/-- Witness for C3: a child whose own `name` instance has the same value
`"root"` as the parent's still contributes a segment, while a child holding
the parent's instance contributes none. -/
theorem generateGlobalName_identity_witness :
    (NameTree.child ⟨2, ⟨"root", none⟩⟩
        (.root ⟨1, ⟨"root", none⟩⟩)).generateGlobalName
      = "root" ++ "." ++ "root"
    ∧ (NameTree.child ⟨1, ⟨"root", none⟩⟩
        (.root ⟨1, ⟨"root", none⟩⟩)).generateGlobalName
      = "root" :=
  ⟨(generateGlobalName_identity (.root ⟨1, ⟨"root", none⟩⟩)
      ⟨2, ⟨"root", none⟩⟩).2 (by decide),
   (generateGlobalName_identity (.root ⟨1, ⟨"root", none⟩⟩)
      ⟨1, ⟨"root", none⟩⟩).1 rfl⟩

/-! ## `TestNode` attribute state and `parseYAMLDefinitions`
(source lines 362-390, 533-626) -/

/-- One entry of the `modules` list of a specification document, as the YAML
collaborator delivers it; absent keys are `none`. -/
structure ModuleDict where
  url : Option String := none
  commit : Option String := none
  name : Option String := none
deriving DecidableEq

/-- A parsed specification document (the key/value map `yaml.load`
returns); absent keys are `none`. -/
structure YamlDoc where
  name : Option String := none
  description : Option String := none
  driver_cmd_line_flags : Option String := none
  boards_url : Option String := none
  boards_commit : Option String := none
  modules : Option (List ModuleDict) := none
deriving DecidableEq

/-- What looking for and loading the specification document yielded: no file
found, a file `yaml.load` raised `YAMLError` on, or a parsed mapping. -/
inductive YamlOutcome where
  | noFile
  | parseError
  | parsed (doc : YamlDoc)
deriving DecidableEq

/-- The attribute state of one `TestNode`.  Attributes `__init__` sets to
`None` are `Option`; `firmware_build` is `Option` because the attribute does
not exist until `setup` assigns it. -/
structure TN where
  path : String
  name : Option Property := none
  description : Option Property := none
  driver_cmd_line_flags : Option Property := none
  boards_url : Option String := none
  boards_commit : Option String := none
  python_driver : Option String := none
  firmware_build : Option FirmwareBuild := none
  has_dedicated_firmware : Bool := false
  is_test_target : Bool := false
deriving DecidableEq

/-- `TestNode.cloneFirmwareBuild` (source lines 612-619): clone the build,
assign the clone's `path`, mark the node dedicated. -/
def TN.cloneFirmwareBuild (s : TN) : Except PyError TN := do
  let fb ← getAttr s.firmware_build
  .ok { s with
    firmware_build := some { fb.clone with path := some s.path }
    has_dedicated_firmware := true }

/-- `TestNode.conditionallyCloneFirmwareBuild` (source lines 624-626). -/
def TN.conditionallyCloneFirmwareBuild (s : TN) : Except PyError TN :=
  if ¬ s.has_dedicated_firmware then s.cloneFirmwareBuild else .ok s

/-- `my_yaml.get(key)` followed by `Property(value)` and `attach(self)` when
the value is truthy; otherwise the attribute keeps its current value. -/
def setPropertyFrom (cur : Option Property) (path : String)
    (v : Option String) : Option Property :=
  match v with
  | some value => if value ≠ "" then some { value := value, path := some path } else cur
  | none => cur

/-- `module_dict.get(key) or "__NONE__"`: Python `or` substitutes the
sentinel for a falsy (absent or empty) value. -/
def orNONE (v : Option String) : String :=
  if pyTruthy v then v.getD "" else "__NONE__"

/-- The `boards_url` paragraph of `parseYAMLDefinitions` (source lines
567-576).  When the node's build already holds a truthy `boards_url`, the
change-detection evaluates `self.firmware_build.firmware_sketch.boards_url`;
neither a `FirmwareSketch` instance nor `None` has a `boards_url` attribute,
so this raises `AttributeError`. -/
def TN.applyBoardsUrl (s : TN) (new_boards_url : Option String) :
    Except PyError TN :=
  if pyTruthy new_boards_url then do
    let fb ← getAttr s.firmware_build
    if ¬ pyTruthy fb.boards_url then do
      let s2 ← s.conditionallyCloneFirmwareBuild
      let fb2 ← getAttr s2.firmware_build
      .ok { s2 with firmware_build := some { fb2 with boards_url := new_boards_url } }
    else
      .error .attributeError
  else .ok s

/-- The `boards_commit` paragraph (source lines 578-586), with the same
wrong nested attribute access as the `boards_url` paragraph. -/
def TN.applyBoardsCommit (s : TN) (new_boards_commit : Option String) :
    Except PyError TN :=
  if pyTruthy new_boards_commit then do
    let fb ← getAttr s.firmware_build
    if ¬ pyTruthy fb.boards_commit then do
      let s2 ← s.conditionallyCloneFirmwareBuild
      let fb2 ← getAttr s2.firmware_build
      .ok { s2 with firmware_build := some { fb2 with boards_commit := new_boards_commit } }
    else
      .error .attributeError
  else .ok s

/-- One iteration of the `modules` loop (source lines 594-610). -/
def TN.applyModuleDict (s : TN) (module_dict : ModuleDict) :
    Except PyError TN := do
  let new_module : KaleidoscopeModule :=
    { url := some (orNONE module_dict.url)
      commit := some (orNONE module_dict.commit)
      name := some (orNONE module_dict.name) }
  let fb ← getAttr s.firmware_build
  if ¬ fb.containsModule new_module then do
    let s2 ← s.conditionallyCloneFirmwareBuild
    let fb2 ← getAttr s2.firmware_build
    .ok { s2 with firmware_build := some (fb2.addModule new_module) }
  else .ok s

def TN.applyModules (s : TN) : List ModuleDict → Except PyError TN
  | [] => .ok s
  | d :: ds => do
      let s2 ← s.applyModuleDict d
      s2.applyModules ds

/-- What `print(exc)` emits in the `yaml.YAMLError` handler. -/
def yamlErrorLog : String := "YAMLError"

/-- `TestNode.parseYAMLDefinitions` (source lines 533-610), over the outcome
of locating and loading the specification document.  The emitted log lines
are returned alongside the new state. -/
def TN.parseYAMLDefinitions (s : TN) (outcome : YamlOutcome) :
    Except PyError (TN × List String) :=
  match outcome with
  | .noFile => .ok (s, [])
  | .parseError => .ok (s, [yamlErrorLog])
  | .parsed my_yaml => do
      let s := { s with name := setPropertyFrom s.name s.path my_yaml.name }
      let s := { s with description := setPropertyFrom s.description s.path my_yaml.description }
      let s := { s with
        driver_cmd_line_flags :=
          setPropertyFrom s.driver_cmd_line_flags s.path my_yaml.driver_cmd_line_flags }
      let s ← s.applyBoardsUrl my_yaml.boards_url
      let s ← s.applyBoardsCommit my_yaml.boards_commit
      match my_yaml.modules with
      | some new_modules =>
          if new_modules ≠ [] then do
            let s2 ← s.applyModules new_modules
            .ok (s2, [])
          else .ok (s, [])
      | none => .ok (s, [])

/-- C9: a node whose specification document cannot be parsed logs the
failure and then proceeds exactly as a node for which no document was found:
the state comes back unchanged (every inherited and default value kept, no
field partially applied), as a normal return — never a termination — while
the no-document run differs only by the missing log line. -/
theorem parseYAML_error_recovery (s : TN) :
    s.parseYAMLDefinitions .parseError = .ok (s, [yamlErrorLog])
    ∧ s.parseYAMLDefinitions .noFile = .ok (s, []) :=
  ⟨rfl, rfl⟩

def nodeWithBoardsUrl : TN :=
  { path := "root/t"
    firmware_build := some
      { boards_url := some "https://boards"
        firmware_sketch := some { filename := "root/sketch.ino" } }
    has_dedicated_firmware := false }

/-- C2 (evaluation of the code at the failing input): a node whose Build
Configuration already carries `boards_url = "https://boards"` processes a
document defining the *equal* value.  The claim requires the configuration
to be left unchanged without failing; instead the change-detection reads
`firmware_build.firmware_sketch.boards_url` — an attribute `FirmwareSketch`
does not have — and the run dies with an `AttributeError`. -/
theorem parseYAML_boards_url_attribute_error :
    nodeWithBoardsUrl.parseYAMLDefinitions
        (.parsed { boards_url := some "https://boards" })
      = .error .attributeError := rfl

def dictUrlA : ModuleDict := { url := some "urlA" }
def dictUrlB : ModuleDict := { url := some "urlB" }

def moduleUrlA : KaleidoscopeModule :=
  { url := some "urlA", commit := some "__NONE__", name := some "__NONE__" }
def moduleUrlB : KaleidoscopeModule :=
  { url := some "urlB", commit := some "__NONE__", name := some "__NONE__" }

def nodeFreshBuild : TN :=
  { path := "root"
    firmware_build := some {}
    has_dedicated_firmware := true }

/-- C5 (evaluation of the code at the failing input): two modules defined
without a `name` key both receive the sentinel `"__NONE__"`, which is a
*truthy* string, so name-based replacement applies to them: the second
module replaces the first in place instead of being appended, and only one
module survives.  The claim requires sentinel-named modules never to be
treated as the same module for replacement purposes. -/
theorem addModule_sentinel_replaces :
    nodeFreshBuild.parseYAMLDefinitions
        (.parsed { modules := some [dictUrlA, dictUrlB] })
      = .ok ({ nodeFreshBuild with
          firmware_build := some
            { modules := [moduleUrlB]
              module_digests := [moduleUrlB.getDigest] } }, []) := rfl

/-! ## `recursivelyCheckValidity` (source lines 412-467) -/

/-- The per-node validity failures, in the order the source tests them. -/
inductive CheckKind where
  | noPath
  | noName
  | noDescription
  | noDriver
  | noBuild
  | noSketch
deriving DecidableEq

/-- One diagnostic line: which check failed, and the `str(self.path)` the
message interpolates (the missing-path message names no path). -/
abbrev LogEntry := CheckKind × Option String

/-- The attribute state `recursivelyCheckValidity` reads on one node. -/
structure VNodeData where
  path : Option String := none
  name : Option Property := none
  description : Option Property := none
  python_driver : Option String := none
  firmware_build : Option FirmwareBuild := none
  is_test_target : Bool := false
deriving DecidableEq

/-- A resolved test tree: node data plus children. -/
inductive VTree where
  | node (data : VNodeData) (children : List VTree)

/-- `TestNode.generatesTests` (source lines 412-413): a test target, or a
leaf. -/
def VTree.generatesTests : VTree → Bool
  | .node d cs => d.is_test_target || cs.isEmpty

/-- The per-node block of `recursivelyCheckValidity` for a test-generating
node.  Each failing check appends its own diagnostic; after logging a
missing build the source still calls `self.firmware_build.checkValidity()`
unguarded, which on an absent build dereferences `None` and raises. -/
def ownChecks (d : VNodeData) : Except PyError (Bool × List LogEntry) :=
  let pathMsg : Option String := some (pystr d.path)
  let l1 : List LogEntry := if ¬ pyTruthy d.path then [(.noPath, none)] else []
  let l2 : List LogEntry := if d.name.isNone then [(.noName, pathMsg)] else []
  let l3 : List LogEntry := if d.description.isNone then [(.noDescription, pathMsg)] else []
  let l4 : List LogEntry := if d.python_driver.isNone then [(.noDriver, pathMsg)] else []
  let l5 : List LogEntry := if d.firmware_build.isNone then [(.noBuild, pathMsg)] else []
  match d.firmware_build with
  | none => .error .attributeError
  | some fb =>
      let l6 : List LogEntry := if ¬ fb.checkValidity then [(.noSketch, pathMsg)] else []
      .ok (pyTruthy d.path && !d.name.isNone && !d.description.isNone
            && !d.python_driver.isNone && !d.firmware_build.isNone && fb.checkValidity,
        l1 ++ l2 ++ l3 ++ l4 ++ l5 ++ l6)

mutual

/-- `TestNode.recursivelyCheckValidity` (source lines 418-467): run this
node's checks when it generates tests, then visit every child and AND the
results (`is_valid &= ...`), concatenating the diagnostics in visit order. -/
def recursivelyCheckValidity : VTree → Except PyError (Bool × List LogEntry)
  | .node d cs => do
      let own ←
        if VTree.generatesTests (.node d cs) then ownChecks d else .ok (true, [])
      let rest ← recCheckChildren cs
      .ok (own.1 && rest.1, own.2 ++ rest.2)

def recCheckChildren : List VTree → Except PyError (Bool × List LogEntry)
  | [] => .ok (true, [])
  | t :: ts => do
      let r1 ← recursivelyCheckValidity t
      let r2 ← recCheckChildren ts
      .ok (r1.1 && r2.1, r1.2 ++ r2.2)

end

mutual

/-- All nodes of the tree in visit order, each with its `generatesTests`
value. -/
def VTree.preorder : VTree → List (VNodeData × Bool)
  | .node d cs => (d, d.is_test_target || cs.isEmpty) :: VTree.preorderChildren cs

def VTree.preorderChildren : List VTree → List (VNodeData × Bool)
  | [] => []
  | t :: ts => t.preorder ++ VTree.preorderChildren ts

end

/-- The five checks the claim lists for a test-generating node: name,
description, driver file, Build Configuration present, sketch set. -/
def specChecksPass (d : VNodeData) : Bool :=
  d.name.isSome && d.description.isSome && d.python_driver.isSome
    && d.firmware_build.isSome
    && ((d.firmware_build.map FirmwareBuild.checkValidity).getD false)

/-- The independent diagnostics of one test-generating node, each naming the
node's path. -/
def specFailures (d : VNodeData) : List LogEntry :=
  (if d.name.isNone then [(.noName, some (pystr d.path))] else [])
  ++ (if d.description.isNone then [(.noDescription, some (pystr d.path))] else [])
  ++ (if d.python_driver.isNone then [(.noDriver, some (pystr d.path))] else [])
  ++ (if ¬ ((d.firmware_build.map FirmwareBuild.checkValidity).getD false) then
        [(.noSketch, some (pystr d.path))] else [])

/-- The AND, over every node of the tree, of the listed checks of the
test-generating ones. -/
def specValid : List (VNodeData × Bool) → Bool
  | [] => true
  | (d, gen) :: rest => ((!gen) || specChecksPass d) && specValid rest

/-- Every failing check of every test-generating node, one entry each, in
visit order. -/
def specLog : List (VNodeData × Bool) → List LogEntry
  | [] => []
  | (d, gen) :: rest => (if gen then specFailures d else []) ++ specLog rest

lemma ownChecks_eq (d : VNodeData) (hp : pyTruthy d.path = true)
    (hb : d.firmware_build.isSome = true) :
    ownChecks d = .ok (specChecksPass d, specFailures d) := by
  obtain ⟨fb, hfb⟩ := Option.isSome_iff_exists.mp hb
  simp [ownChecks, specChecksPass, specFailures, hfb, hp]

lemma mem_preorderChildren {e : VNodeData × Bool} {t : VTree}
    {ts : List VTree} (ht : t ∈ ts) (he : e ∈ t.preorder) :
    e ∈ VTree.preorderChildren ts := by
  induction ts with
  | nil => cases ht
  | cons t2 ts2 ih =>
      rw [VTree.preorderChildren]
      rcases List.mem_cons.mp ht with h | h
      · subst h; exact List.mem_append_left _ he
      · exact List.mem_append_right _ (ih h)

lemma specValid_append (l1 l2 : List (VNodeData × Bool)) :
    specValid (l1 ++ l2) = (specValid l1 && specValid l2) := by
  induction l1 with
  | nil => simp [specValid]
  | cons e rest ih => obtain ⟨d, gen⟩ := e; simp [specValid, ih, Bool.and_assoc]

lemma specLog_append (l1 l2 : List (VNodeData × Bool)) :
    specLog (l1 ++ l2) = specLog l1 ++ specLog l2 := by
  induction l1 with
  | nil => simp [specLog]
  | cons e rest ih => obtain ⟨d, gen⟩ := e; simp [specLog, ih]

lemma recCheck_spec_aux (n : Nat) :
    ∀ (t : VTree), sizeOf t < n →
      (∀ e ∈ t.preorder, pyTruthy e.1.path) →
      (∀ e ∈ t.preorder, e.1.firmware_build.isSome) →
      recursivelyCheckValidity t
        = .ok (specValid t.preorder, specLog t.preorder) := by
  induction n with
  | zero => intro t h; exact absurd h (Nat.not_lt_zero _)
  | succ n ih =>
      intro t hsize hpath hfb
      obtain ⟨d, cs⟩ := t
      have hcs : sizeOf cs < n := by
        have := VTree.node.sizeOf_spec d cs
        omega
      have hmem : ∀ (t2 : VTree), t2 ∈ cs → ∀ e ∈ t2.preorder,
          e ∈ (VTree.node d cs).preorder := by
        intro t2 ht2 e he
        rw [VTree.preorder]
        exact List.mem_cons_of_mem _ (mem_preorderChildren ht2 he)
      have hchild : ∀ t2 ∈ cs, recursivelyCheckValidity t2
          = .ok (specValid t2.preorder, specLog t2.preorder) := by
        intro t2 ht2
        refine ih t2 ?_ ?_ ?_
        · have h1 : sizeOf t2 < sizeOf cs := List.sizeOf_lt_of_mem ht2
          omega
        · intro e he; exact hpath e (hmem t2 ht2 e he)
        · intro e he; exact hfb e (hmem t2 ht2 e he)
      have hrest : ∀ (cs2 : List VTree),
          (∀ t2 ∈ cs2, recursivelyCheckValidity t2
            = .ok (specValid t2.preorder, specLog t2.preorder)) →
          recCheckChildren cs2
            = .ok (specValid (VTree.preorderChildren cs2),
                specLog (VTree.preorderChildren cs2)) := by
        intro cs2
        induction cs2 with
        | nil => intro _; simp [recCheckChildren, VTree.preorderChildren, specValid, specLog]
        | cons t2 ts2 ih2 =>
            intro hall
            rw [recCheckChildren, hall t2 (List.mem_cons_self t2 ts2),
              ih2 (fun u hu => hall u (List.mem_cons_of_mem _ hu))]
            simp [VTree.preorderChildren, specValid_append, specLog_append,
              Bind.bind, Except.bind]
      have hrestEq := hrest cs hchild
      have hdpath : pyTruthy d.path := by
        refine hpath (d, d.is_test_target || cs.isEmpty) ?_
        rw [VTree.preorder]; exact List.mem_cons_self _ _
      have hdfb : d.firmware_build.isSome := by
        refine hfb (d, d.is_test_target || cs.isEmpty) ?_
        rw [VTree.preorder]; exact List.mem_cons_self _ _
      rw [recursivelyCheckValidity, hrestEq]
      by_cases hgen : (d.is_test_target || cs.isEmpty) = true
      · rw [VTree.preorder]
        simp [VTree.generatesTests, hgen, ownChecks_eq d hdpath hdfb,
          specValid, specLog, Bind.bind, Except.bind]
      · rw [VTree.preorder]
        simp [VTree.generatesTests, hgen, specValid, specLog,
          Bind.bind, Except.bind, Bool.not_eq_true] at *

/-- C8: over any tree whose nodes carry a set path and a firmware-build
attribute (as every node constructed by `setup` does), the recursive
validity check visits every node and never stops at a failure: it returns
normally with, first, the AND of the five listed checks (name, description,
driver file, Build Configuration present, sketch set) over all
test-generating nodes, and second, one independent diagnostic per failed
check of each test-generating node, each naming that node's path, in visit
order. -/
theorem recursivelyCheckValidity_complete (t : VTree)
    (hpath : ∀ e ∈ t.preorder, pyTruthy e.1.path)
    (hfb : ∀ e ∈ t.preorder, e.1.firmware_build.isSome) :
    recursivelyCheckValidity t
      = .ok (specValid t.preorder, specLog t.preorder) :=
  recCheck_spec_aux (sizeOf t + 1) t (Nat.lt_succ_self _) hpath hfb

def vLeafX : VTree := .node
  { path := some "root/x"
    name := some { value := "x", path := some "root/x" }
    description := none
    python_driver := some "root/driver.py"
    firmware_build := some { firmware_sketch := some { filename := "root/sketch.ino" } } }
  []

def vLeafY : VTree := .node
  { path := some "root/y"
    name := some { value := "y", path := some "root/y" }
    description := some { value := "d", path := some "root" }
    python_driver := none
    firmware_build := some { firmware_sketch := some { filename := "root/sketch.ino" } } }
  []

def vRoot : VTree := .node
  { path := some "root"
    name := some { value := "root", path := some "root" }
    description := none
    python_driver := none
    firmware_build := some {} }
  [vLeafX, vLeafY]

/-- Witness for C8: a tree whose first leaf misses its description and whose
second leaf misses its driver produces both diagnostics (the traversal does
not stop at the first failure) and the AND comes out false; the interior
root node, which generates no tests, is not checked. -/
theorem recursivelyCheckValidity_complete_witness :
    recursivelyCheckValidity vRoot
      = .ok (false,
        [(.noDescription, some "root/x"), (.noDriver, some "root/y")]) :=
  (recursivelyCheckValidity_complete vRoot (by decide) (by decide)).trans (by rfl)

/-! ## `TestNode.setup` (source lines 628-717) -/

/-- The loaded content of a specification document, for directories that
hold one. -/
inductive YamlContent where
  | parseError
  | parsed (doc : YamlDoc)
deriving DecidableEq

def YamlContent.toOutcome : YamlContent → YamlOutcome
  | .parseError => .parseError
  | .parsed d => .parsed d

/-- `os.path.basename`: the final path segment (after the last `/`). -/
def basename (p : String) : String :=
  String.mk ((p.data.reverse.takeWhile (fun c => c ≠ '/')).reverse)

/-- `TestNode.findPythonDriver` (source lines 479-490): take the unique
driver file of the searched directory, else inherit the parent's
(`useParentEntity`, a no-op at the root). -/
def TN.findPythonDriver (s : TN) (parent : Option TN) (srcPath : String)
    (srcL : Listing) : TN :=
  match find_unique_file test_driver_pattern srcPath srcL with
  | some f => { s with python_driver := some f }
  | none =>
      match parent with
      | some p => { s with python_driver := p.python_driver }
      | none => s

/-- `TestNode.findFirmwareSketch` (source lines 494-518): when a sketch file
is found and it differs (by filename) from the build's current sketch —
or the build has none — clone-on-demand, then assign and attach the new
sketch reference. -/
def TN.findFirmwareSketch (s : TN) (srcPath : String) (srcL : Listing) :
    Except PyError TN := do
  match find_unique_file firmware_sketch_pattern srcPath srcL with
  | none => .ok s
  | some firmware_sketch_file => do
      let fb ← getAttr s.firmware_build
      let differs : Bool :=
        match fb.firmware_sketch with
        | none => true
        | some sk => sk.filename ≠ firmware_sketch_file
      if differs then do
        let s2 ← s.conditionallyCloneFirmwareBuild
        let fb2 ← getAttr s2.firmware_build
        .ok { s2 with
          firmware_build := some { fb2 with
            firmware_sketch := some { filename := firmware_sketch_file, path := some s2.path } } }
      else .ok s

/-- `TestNode.findTestTrigger` (source lines 523-529): searched in the
node's own directory, never the redirected one. -/
def TN.findTestTrigger (s : TN) (L : Listing) : TN :=
  match find_file test_trigger_basename s.path L with
  | some _ => { s with is_test_target := true }
  | none => s

/-- Everything `setup` consumes from the filesystem collaborators: the
node's path, the listings of the directory and of a potential
`__external__` subdirectory, and the loaded content of whichever
specification document the searched directory holds. -/
structure SetupInput where
  path : String
  listing : Listing := {}
  extListing : Listing := {}
  yamlContent : YamlContent := .parsed {}
  extYamlContent : YamlContent := .parsed {}

/-- `TestNode.setup` (source lines 628-717), with the emitted log lines.
Steps in source order: adopt or create the firmware build (630-640), the
`__external__` block (642-689), inheritance by reference from the parent
(691-699), driver / sketch / document discovery on the selected source path
(706-708), test-trigger detection on the node's own path (712), and the
name fallback to the path basename (714-717). -/
def TN.setup (parent : Option TN) (inp : SetupInput) :
    Except PyError (TN × List String) := do
  let s0 : TN := { path := inp.path }
  let s1 : TN :=
    match parent with
    | some p => { s0 with firmware_build := p.firmware_build, has_dedicated_firmware := false }
    | none => { s0 with firmware_build := some { path := some inp.path }, has_dedicated_firmware := true }
  let source_path ← externalBlock inp.path inp.listing
  -- a redirected source path is `pyJoin inp.path "__external__"`, never equal
  -- to `inp.path`, so this equality test selects the searched directory
  let src : Listing × YamlContent :=
    if source_path = inp.path then (inp.listing, inp.yamlContent)
    else (inp.extListing, inp.extYamlContent)
  let s2 : TN :=
    match parent with
    | some p => { s1 with
        description := p.description
        driver_cmd_line_flags := p.driver_cmd_line_flags
        boards_url := p.boards_url
        boards_commit := p.boards_commit
        firmware_build := p.firmware_build }
    | none => s1
  let s3 := s2.findPythonDriver parent source_path src.1
  let s4 ← s3.findFirmwareSketch source_path src.1
  let yamlOutcome : YamlOutcome :=
    match find_unique_file test_specification_pattern source_path src.1 with
    | some _ => src.2.toOutcome
    | none => .noFile
  let r5 ← s4.parseYAMLDefinitions yamlOutcome
  let s6 := r5.1.findTestTrigger inp.listing
  let s7 := if s6.name.isNone then
      { s6 with name := some { value := basename s6.path, path := some s6.path } }
    else s6
  .ok (s7, r5.2)

/-! ## C10: `setup` always yields a name and a firmware build -/

lemma cloneFirmwareBuild_fb {s s2 : TN} (h : s.cloneFirmwareBuild = .ok s2) :
    s2.firmware_build.isSome := by
  cases hfb : s.firmware_build with
  | none => simp [TN.cloneFirmwareBuild, hfb, getAttr, Bind.bind, Except.bind] at h
  | some fb =>
      simp [TN.cloneFirmwareBuild, hfb, getAttr, Bind.bind, Except.bind] at h
      subst h
      simp

lemma conditionallyClone_fb {s s2 : TN}
    (h : s.conditionallyCloneFirmwareBuild = .ok s2)
    (hs : s.firmware_build.isSome) : s2.firmware_build.isSome := by
  unfold TN.conditionallyCloneFirmwareBuild at h
  by_cases hd : s.has_dedicated_firmware
  · simp [hd] at h; subst h; exact hs
  · simp [hd] at h; exact cloneFirmwareBuild_fb h

lemma applyBoardsUrl_fb {s s2 : TN} {v : Option String}
    (h : s.applyBoardsUrl v = .ok s2)
    (hs : s.firmware_build.isSome) : s2.firmware_build.isSome := by
  unfold TN.applyBoardsUrl at h
  by_cases hv : pyTruthy v
  · obtain ⟨fb, hfb⟩ := Option.isSome_iff_exists.mp hs
    simp [hv, hfb, getAttr, Bind.bind, Except.bind] at h
    by_cases hb : pyTruthy fb.boards_url
    · simp [hb] at h
    · simp [hb] at h
      cases hc : s.conditionallyCloneFirmwareBuild with
      | error e => simp [hc, Bind.bind, Except.bind] at h
      | ok s3 =>
          obtain ⟨fb3, hfb3⟩ :=
            Option.isSome_iff_exists.mp (conditionallyClone_fb hc hs)
          simp [hc, hfb3, getAttr, Bind.bind, Except.bind] at h
          subst h
          simp
  · simp [hv] at h; subst h; exact hs

lemma applyBoardsCommit_fb {s s2 : TN} {v : Option String}
    (h : s.applyBoardsCommit v = .ok s2)
    (hs : s.firmware_build.isSome) : s2.firmware_build.isSome := by
  unfold TN.applyBoardsCommit at h
  by_cases hv : pyTruthy v
  · obtain ⟨fb, hfb⟩ := Option.isSome_iff_exists.mp hs
    simp [hv, hfb, getAttr, Bind.bind, Except.bind] at h
    by_cases hb : pyTruthy fb.boards_commit
    · simp [hb] at h
    · simp [hb] at h
      cases hc : s.conditionallyCloneFirmwareBuild with
      | error e => simp [hc, Bind.bind, Except.bind] at h
      | ok s3 =>
          obtain ⟨fb3, hfb3⟩ :=
            Option.isSome_iff_exists.mp (conditionallyClone_fb hc hs)
          simp [hc, hfb3, getAttr, Bind.bind, Except.bind] at h
          subst h
          simp
  · simp [hv] at h; subst h; exact hs

lemma applyModuleDict_fb {s s2 : TN} {d : ModuleDict}
    (h : s.applyModuleDict d = .ok s2)
    (hs : s.firmware_build.isSome) : s2.firmware_build.isSome := by
  unfold TN.applyModuleDict at h
  obtain ⟨fb, hfb⟩ := Option.isSome_iff_exists.mp hs
  simp [hfb, getAttr, Bind.bind, Except.bind] at h
  by_cases hc : fb.containsModule
      { url := some (orNONE d.url), commit := some (orNONE d.commit),
        name := some (orNONE d.name) }
  · simp [hc] at h; subst h; exact hs
  · simp [hc] at h
    cases hcc : s.conditionallyCloneFirmwareBuild with
    | error e => simp [hcc, Bind.bind, Except.bind] at h
    | ok s3 =>
        obtain ⟨fb3, hfb3⟩ :=
          Option.isSome_iff_exists.mp (conditionallyClone_fb hcc hs)
        simp [hcc, hfb3, getAttr, Bind.bind, Except.bind] at h
        subst h
        simp

lemma applyModules_fb {s s2 : TN} {ds : List ModuleDict}
    (h : s.applyModules ds = .ok s2)
    (hs : s.firmware_build.isSome) : s2.firmware_build.isSome := by
  induction ds generalizing s with
  | nil => simp [TN.applyModules] at h; subst h; exact hs
  | cons d ds ih =>
      simp only [TN.applyModules, Bind.bind] at h
      cases hd : s.applyModuleDict d with
      | error e => simp [hd, Except.bind] at h
      | ok s3 =>
          simp [hd, Except.bind] at h
          exact ih h (applyModuleDict_fb hd hs)

lemma parseYAML_fb {s s2 : TN} {o : YamlOutcome} {log : List String}
    (h : s.parseYAMLDefinitions o = .ok (s2, log))
    (hs : s.firmware_build.isSome) : s2.firmware_build.isSome := by
  cases o with
  | noFile => simp [TN.parseYAMLDefinitions] at h; rw [← h.1]; exact hs
  | parseError => simp [TN.parseYAMLDefinitions] at h; rw [← h.1]; exact hs
  | parsed my_yaml =>
      simp only [TN.parseYAMLDefinitions, Bind.bind] at h
      set sA : TN := { s with name := setPropertyFrom s.name s.path my_yaml.name } with hA
      set sB : TN := { sA with
        description := setPropertyFrom sA.description sA.path my_yaml.description } with hB
      set sC : TN := { sB with
        driver_cmd_line_flags :=
          setPropertyFrom sB.driver_cmd_line_flags sB.path my_yaml.driver_cmd_line_flags } with hC
      have hsC : sC.firmware_build.isSome := hs
      cases hu : sC.applyBoardsUrl my_yaml.boards_url with
      | error e => rw [hu] at h; simp [Except.bind] at h
      | ok sD =>
          rw [hu] at h
          have hsD := applyBoardsUrl_fb hu hsC
          cases hcm : sD.applyBoardsCommit my_yaml.boards_commit with
          | error e => simp [hcm, Except.bind] at h
          | ok sE =>
              simp only [hcm, Except.bind] at h
              have hsE := applyBoardsCommit_fb hcm hsD
              cases hmods : my_yaml.modules with
              | none => simp [hmods] at h; rw [← h.1]; exact hsE
              | some ms =>
                  simp only [hmods] at h
                  by_cases hne : ms = []
                  · simp [hne] at h; rw [← h.1]; exact hsE
                  · simp [hne, Bind.bind] at h
                    cases happ : sE.applyModules ms with
                    | error e => simp [happ, Except.bind] at h
                    | ok sF =>
                        simp [happ, Except.bind] at h
                        rw [← h.1]
                        exact applyModules_fb happ hsE

lemma findFirmwareSketch_fb {s s2 : TN} {p : String} {L : Listing}
    (h : s.findFirmwareSketch p L = .ok s2)
    (hs : s.firmware_build.isSome) : s2.firmware_build.isSome := by
  unfold TN.findFirmwareSketch at h
  cases hf : find_unique_file firmware_sketch_pattern p L with
  | none => simp [hf] at h; subst h; exact hs
  | some f =>
      obtain ⟨fb, hfb⟩ := Option.isSome_iff_exists.mp hs
      simp only [hf, hfb, getAttr, Bind.bind, Except.bind] at h
      by_cases hdif : (match fb.firmware_sketch with
        | none => true
        | some sk => decide ¬ sk.filename = f) = true
      · rw [if_pos hdif] at h
        cases hcc : s.conditionallyCloneFirmwareBuild with
        | error e => simp [hcc, Bind.bind, Except.bind] at h
        | ok s3 =>
            obtain ⟨fb3, hfb3⟩ :=
              Option.isSome_iff_exists.mp (conditionallyClone_fb hcc hs)
            simp [hcc, hfb3, getAttr, Bind.bind, Except.bind] at h
            subst h
            simp
      · rw [if_neg hdif] at h
        simp at h
        subst h
        exact hs

lemma findPythonDriver_fb (s : TN) (parent : Option TN) (p : String)
    (L : Listing) :
    (s.findPythonDriver parent p L).firmware_build = s.firmware_build := by
  unfold TN.findPythonDriver
  cases find_unique_file test_driver_pattern p L <;> cases parent <;> simp

lemma findTestTrigger_fb (s : TN) (L : Listing) :
    (s.findTestTrigger L).firmware_build = s.firmware_build := by
  unfold TN.findTestTrigger
  cases find_file test_trigger_basename s.path L <;> simp

/-- The view of a `TestNode` that `recursivelyCheckValidity` reads. -/
def TN.toVNodeData (s : TN) : VNodeData :=
  { path := some s.path
    name := s.name
    description := s.description
    python_driver := s.python_driver
    firmware_build := s.firmware_build
    is_test_target := s.is_test_target }

lemma ownChecks_ok_of_fb {d : VNodeData} (hb : d.firmware_build.isSome) :
    ∃ r, ownChecks d = .ok r := by
  obtain ⟨fb, hfb⟩ := Option.isSome_iff_exists.mp hb
  unfold ownChecks
  rw [hfb]
  exact ⟨_, rfl⟩

lemma nameFallback_isSome (s6 : TN) :
    (if s6.name.isNone then
        { s6 with name := some { value := basename s6.path, path := some s6.path } }
      else s6).name.isSome := by
  cases hn : s6.name with
  | none => simp [hn]
  | some v => simp [hn]

lemma nameFallback_fb (s6 : TN) :
    (if s6.name.isNone then
        { s6 with name := some { value := basename s6.path, path := some s6.path } }
      else s6).firmware_build = s6.firmware_build := by
  by_cases hn : s6.name.isNone <;> simp [hn]

/-- C10: whenever `setup` completes normally (on any discovery input, with a
parent that — like every completed node — carries a firmware build, or with
no parent), the produced node has a set `name` (falling back to the path's
final segment) and a set `firmware_build`; consequently the validity check's
missing-name and missing-build branches cannot fire on it, and the unguarded
`firmware_build.checkValidity()` call returns without dereferencing an
absent configuration. -/
theorem setup_yields_name_and_build (parent : Option TN) (inp : SetupInput)
    (tn : TN) (log : List String)
    (hparent : ∀ p, parent = some p → p.firmware_build.isSome)
    (h : TN.setup parent inp = .ok (tn, log)) :
    tn.name.isSome ∧ tn.firmware_build.isSome
      ∧ ∃ r, ownChecks tn.toVNodeData = .ok r := by
  unfold TN.setup at h
  simp only [Bind.bind, Except.bind] at h
  split at h
  next e hext => simp at h
  next source_path hext =>
    split at h
    next e hsk => simp at h
    next s4 hsk =>
      split at h
      next e hpy => simp at h
      next r5 hpy =>
        obtain ⟨s5, log5⟩ := r5
        have hs4fb : s4.firmware_build.isSome := by
          refine findFirmwareSketch_fb hsk ?_
          rw [findPythonDriver_fb]
          cases parent with
          | none => simp
          | some p => simpa using hparent p rfl
        have hs5fb : s5.firmware_build.isSome := parseYAML_fb hpy hs4fb
        simp only [Except.ok.injEq, Prod.mk.injEq] at h
        obtain ⟨h1, h2⟩ := h
        subst h1
        refine ⟨nameFallback_isSome _, ?_, ?_⟩
        · rw [nameFallback_fb, findTestTrigger_fb]
          exact hs5fb
        · refine ownChecks_ok_of_fb ?_
          show (TN.toVNodeData _).firmware_build.isSome
          unfold TN.toVNodeData
          simp only
          rw [nameFallback_fb, findTestTrigger_fb]
          exact hs5fb

def setupInputW : SetupInput :=
  { path := "root", listing := { files := ["driver.py", "sketch.ino"] } }

def setupResultW : TN :=
  { path := "root"
    name := some { value := "root", path := some "root" }
    python_driver := some "root/driver.py"
    firmware_build := some
      { path := some "root"
        firmware_sketch := some { filename := "root/sketch.ino", path := some "root" } }
    has_dedicated_firmware := true }

/-- Witness for C10: a concrete root-node `setup` over a directory holding a
driver and a sketch completes with a name (the basename fallback) and a
firmware build, and its validity checks run without an error. -/
theorem setup_yields_name_and_build_witness :
    setupResultW.name.isSome ∧ setupResultW.firmware_build.isSome
      ∧ ∃ r, ownChecks setupResultW.toVNodeData = .ok r :=
  setup_yields_name_and_build none setupInputW setupResultW []
    (fun p hp => nomatch hp) (by rfl)

/-! ## Heap model of `FirmwareBuild` objects (clone independence, C7)

`TestNode.setup` shares the parent's `FirmwareBuild` *object* by reference;
`cloneFirmwareBuild` replaces the node's reference by a clone.  To state
frame properties about this aliasing we model the Python heap explicitly:
list objects and build objects live in stores addressed by `Nat`.  Distinct
live build objects never share a list object: the only constructor call that
aliases the lists (`FirmwareBuild(self)` inside `clone`) repoints the fresh
object at `copy.copy`-copies of both lists before `clone` returns. -/

/-- A `FirmwareBuild` object on the heap: references to its two list
objects, plus its immutable-valued scalar attributes. -/
structure FirmwareBuildObj where
  modulesRef : Nat
  module_digestsRef : Nat
  firmware_sketch : Option FirmwareSketch := none
  boards_url : Option String := none
  boards_commit : Option String := none
  path : Option String := none
  set_id : Option Nat := none
deriving DecidableEq

/-- The heap: the module-list store, the digest-list store, the build-object
store, and the next fresh address of each. -/
structure Heap where
  lists : Nat → List KaleidoscopeModule
  dlists : Nat → List String
  builds : Nat → FirmwareBuildObj
  nextList : Nat
  nextDList : Nat
  nextBuild : Nat

/-- `FirmwareBuild.clone` on the heap: `FirmwareBuild(self)` creates a fresh
object aliasing the lists of the object at `b`; `copy.copy` then allocates
fresh copies of both lists, which the fresh object is repointed at before
`clone` returns.  Returns the new object's address. -/
def cloneAt (σ : Heap) (b : Nat) : Heap × Nat :=
  let old := σ.builds b
  let newObj : FirmwareBuildObj :=
    { modulesRef := σ.nextList
      module_digestsRef := σ.nextDList
      firmware_sketch := old.firmware_sketch
      boards_url := old.boards_url
      boards_commit := old.boards_commit
      path := none }
  ({ lists := fun n => if n = σ.nextList then σ.lists old.modulesRef else σ.lists n
     dlists := fun n => if n = σ.nextDList then σ.dlists old.module_digestsRef else σ.dlists n
     builds := fun n => if n = σ.nextBuild then newObj else σ.builds n
     nextList := σ.nextList + 1
     nextDList := σ.nextDList + 1
     nextBuild := σ.nextBuild + 1 }, σ.nextBuild)

/-- `FirmwareBuild.addModule` on the heap: mutates, in place, the two list
objects referenced by the build object at `b` (same logic as the value-level
`FirmwareBuild.addModule`). -/
def addModuleAt (σ : Heap) (b : Nat) (new_module : KaleidoscopeModule) : Heap :=
  let obj := σ.builds b
  let ms := σ.lists obj.modulesRef
  let ds := σ.dlists obj.module_digestsRef
  let new_digest := new_module.getDigest
  let matchIdx : Option Nat :=
    if pyTruthy new_module.name then
      ms.findIdx? (fun m => m.name == new_module.name)
    else none
  match matchIdx with
  | some i =>
      { σ with
        lists := fun n => if n = obj.modulesRef then ms.set i new_module else σ.lists n
        dlists := fun n => if n = obj.module_digestsRef then ds.set i new_digest else σ.dlists n }
  | none =>
      { σ with
        lists := fun n => if n = obj.modulesRef then ms ++ [new_module] else σ.lists n
        dlists := fun n => if n = obj.module_digestsRef then ds ++ [new_digest] else σ.dlists n }

/-- `FirmwareBuild.getDigest` read through the heap. -/
def getDigestAt (σ : Heap) (b : Nat) : Option String :=
  let obj := σ.builds b
  obj.firmware_sketch.map fun sk =>
    sha256hex
      ((pysort ((σ.lists obj.modulesRef).map KaleidoscopeModule.getDigest)).foldl (· ++ ·) ""
        ++ pystr obj.boards_url ++ pystr obj.boards_commit ++ sk.filename)

/-- The node state `cloneFirmwareBuild` touches, with the build held by
reference. -/
structure HeapNode where
  path : String := ""
  buildRef : Nat
  has_dedicated_firmware : Bool
deriving DecidableEq

/-- `TestNode.cloneFirmwareBuild` on the heap: repoint the node at a clone,
assign the clone's `path`, set the ownership flag. -/
def cloneFirmwareBuildH (σ : Heap) (nd : HeapNode) : Heap × HeapNode :=
  let r := cloneAt σ nd.buildRef
  let σ2 := { r.1 with
    builds := fun n =>
      if n = r.2 then { r.1.builds r.2 with path := some nd.path } else r.1.builds n }
  (σ2, { nd with buildRef := r.2, has_dedicated_firmware := true })

/-- `TestNode.conditionallyCloneFirmwareBuild` on the heap. -/
def conditionallyCloneH (σ : Heap) (nd : HeapNode) : Heap × HeapNode :=
  if ¬ nd.has_dedicated_firmware then cloneFirmwareBuildH σ nd else (σ, nd)

lemma addModuleAt_builds (σ : Heap) (b : Nat) (m : KaleidoscopeModule) :
    (addModuleAt σ b m).builds = σ.builds := by
  simp only [addModuleAt]
  split <;> rfl

lemma addModuleAt_lists_ne (σ : Heap) (b : Nat) (m : KaleidoscopeModule)
    (l : Nat) (hl : l ≠ (σ.builds b).modulesRef) :
    (addModuleAt σ b m).lists l = σ.lists l := by
  simp only [addModuleAt]
  split <;> simp [hl]

lemma addModuleAt_dlists_ne (σ : Heap) (b : Nat) (m : KaleidoscopeModule)
    (d : Nat) (hd : d ≠ (σ.builds b).module_digestsRef) :
    (addModuleAt σ b m).dlists d = σ.dlists d := by
  simp only [addModuleAt]
  split <;> simp [hd]

lemma foldAddModules_frame (A refM refD l d : Nat)
    (hl : l ≠ refM) (hd : d ≠ refD) :
    ∀ (ms : List KaleidoscopeModule) (σ2 : Heap),
      (σ2.builds A).modulesRef = refM →
      (σ2.builds A).module_digestsRef = refD →
      ((ms.foldl (fun σ3 m => addModuleAt σ3 A m) σ2).builds = σ2.builds
        ∧ (ms.foldl (fun σ3 m => addModuleAt σ3 A m) σ2).lists l = σ2.lists l
        ∧ (ms.foldl (fun σ3 m => addModuleAt σ3 A m) σ2).dlists d = σ2.dlists d) := by
  intro ms
  induction ms with
  | nil => intro σ2 h1 h2; exact ⟨rfl, rfl, rfl⟩
  | cons m ms ih =>
      intro σ2 h1 h2
      simp only [List.foldl_cons]
      have hb := addModuleAt_builds σ2 A m
      obtain ⟨i1, i2, i3⟩ := ih (addModuleAt σ2 A m)
        (by rw [hb]; exact h1) (by rw [hb]; exact h2)
      refine ⟨i1.trans hb, i2.trans ?_, i3.trans ?_⟩
      · exact addModuleAt_lists_ne σ2 A m l (by rw [h1]; exact hl)
      · exact addModuleAt_dlists_ne σ2 A m d (by rw [h2]; exact hd)

/-- C7: once a node sharing its Build Configuration performs the
copy-on-write clone, its dedicated build is a fresh object, and any sequence
of module additions/replacements through it leaves every pre-existing build
object — in particular the parent's and every sibling's — with its module
list, module digest list and canonical digest unchanged. -/
theorem clone_independence (σ σ1 σ2 : Heap) (nd ndA : HeapNode)
    (ms : List KaleidoscopeModule) (b : Nat)
    (hclone : conditionallyCloneH σ nd = (σ1, ndA))
    (hfold : σ2 = ms.foldl (fun σ3 m => addModuleAt σ3 ndA.buildRef m) σ1)
    (hnd : nd.has_dedicated_firmware = false)
    (hb : b < σ.nextBuild)
    (hwfM : (σ.builds b).modulesRef < σ.nextList)
    (hwfD : (σ.builds b).module_digestsRef < σ.nextDList) :
    ndA.buildRef = σ.nextBuild
    ∧ σ2.builds b = σ.builds b
    ∧ σ2.lists (σ.builds b).modulesRef = σ.lists (σ.builds b).modulesRef
    ∧ σ2.dlists (σ.builds b).module_digestsRef = σ.dlists (σ.builds b).module_digestsRef
    ∧ getDigestAt σ2 b = getDigestAt σ b := by
  have hcl : cloneFirmwareBuildH σ nd = (σ1, ndA) := by
    rw [← hclone]; simp [conditionallyCloneH, hnd]
  have h1 := congrArg Prod.fst hcl
  have h2 := congrArg Prod.snd hcl
  simp only [cloneFirmwareBuildH, cloneAt] at h1 h2
  have hrefA : ndA.buildRef = σ.nextBuild := by
    rw [← h2]
  have hσ1builds : ∀ b2, b2 < σ.nextBuild → σ1.builds b2 = σ.builds b2 := by
    intro b2 hb2
    have hne : b2 ≠ σ.nextBuild := Nat.ne_of_lt hb2
    rw [← h1]
    simp [hne]
  have hσ1lists : ∀ l, l < σ.nextList → σ1.lists l = σ.lists l := by
    intro l hlt
    have hne : l ≠ σ.nextList := Nat.ne_of_lt hlt
    rw [← h1]
    simp [hne]
  have hσ1dlists : ∀ d2, d2 < σ.nextDList → σ1.dlists d2 = σ.dlists d2 := by
    intro d2 hlt
    have hne : d2 ≠ σ.nextDList := Nat.ne_of_lt hlt
    rw [← h1]
    simp [hne]
  have hArefs : (σ1.builds ndA.buildRef).modulesRef = σ.nextList
      ∧ (σ1.builds ndA.buildRef).module_digestsRef = σ.nextDList := by
    rw [← h1, hrefA]
    simp
  obtain ⟨f1, f2, f3⟩ := foldAddModules_frame ndA.buildRef σ.nextList σ.nextDList
    (σ.builds b).modulesRef (σ.builds b).module_digestsRef
    (Nat.ne_of_lt hwfM) (Nat.ne_of_lt hwfD) ms σ1 hArefs.1 hArefs.2
  rw [← hfold] at f1 f2 f3
  have hbuilds : σ2.builds b = σ.builds b := by
    rw [congrFun f1 b]; exact hσ1builds b hb
  have hlists : σ2.lists (σ.builds b).modulesRef = σ.lists (σ.builds b).modulesRef := by
    rw [f2]; exact hσ1lists _ hwfM
  have hdlists : σ2.dlists (σ.builds b).module_digestsRef
      = σ.dlists (σ.builds b).module_digestsRef := by
    rw [f3]; exact hσ1dlists _ hwfD
  refine ⟨hrefA, hbuilds, hlists, hdlists, ?_⟩
  simp only [getDigestAt]
  rw [hbuilds, hlists]

def moduleB : KaleidoscopeModule :=
  { url := some "B", commit := some "__NONE__", name := some "plugin" }

def heapW : Heap :=
  { lists := fun _ => [moduleCore]
    dlists := fun _ => [moduleCore.getDigest]
    builds := fun _ =>
      { modulesRef := 0, module_digestsRef := 0
        firmware_sketch := some { filename := "root/sketch.ino" } }
    nextList := 1
    nextDList := 1
    nextBuild := 1 }

def nodeW : HeapNode :=
  { path := "root/z", buildRef := 0, has_dedicated_firmware := false }

def heapCloneW : Heap × HeapNode := conditionallyCloneH heapW nodeW

def heapMutW : Heap :=
  [moduleB].foldl (fun σ3 m => addModuleAt σ3 heapCloneW.2.buildRef m) heapCloneW.1

/-- Witness for C7: a node sharing build object 0 clones it and then adds a
module through the clone; build object 0, its module list, its digest list
and its canonical digest are unchanged. -/
theorem clone_independence_witness :
    heapCloneW.2.buildRef = heapW.nextBuild
    ∧ heapMutW.builds 0 = heapW.builds 0
    ∧ heapMutW.lists (heapW.builds 0).modulesRef = heapW.lists (heapW.builds 0).modulesRef
    ∧ heapMutW.dlists (heapW.builds 0).module_digestsRef
        = heapW.dlists (heapW.builds 0).module_digestsRef
    ∧ getDigestAt heapMutW 0 = getDigestAt heapW 0 :=
  clone_independence heapW heapCloneW.1 heapMutW nodeW heapCloneW.2 [moduleB] 0
    rfl rfl rfl (by decide) (by decide) (by decide)

/-! ## `determine_unique_firmware_builds` (source lines 799-828) -/

/-- The per-node state the deduplicator reads: whether the node generates
tests, whether it owns its build (`has_dedicated_firmware`), and which build
object it references. -/
structure DedupNode where
  generates_tests : Bool
  has_dedicated_firmware : Bool
  buildRef : Nat
deriving DecidableEq

/-- Pass 1 (source lines 803-816): every *test-generating* node that *owns a
dedicated* build presents its digest; the first owner of a new digest gets
the next sequential `set_id` stamped onto its (possibly shared) build object
and is registered as that digest's canonical build.  A digest computed on a
sketch-less build raises (`none`). -/
def dedupPass1 : List DedupNode → Heap → List (String × Nat) → Nat →
    Option (Heap × List (String × Nat))
  | [], σ, m, _ => some (σ, m)
  | nd :: nds, σ, m, set_id =>
      if nd.generates_tests && nd.has_dedicated_firmware then
        match getDigestAt σ nd.buildRef with
        | none => none
        | some my_digest =>
            if (m.lookup my_digest).isNone then
              let σ2 := { σ with
                builds := fun n =>
                  if n = nd.buildRef then
                    { σ.builds nd.buildRef with set_id := some set_id }
                  else σ.builds n }
              dedupPass1 nds σ2 (m ++ [(my_digest, nd.buildRef)]) (set_id + 1)
            else dedupPass1 nds σ m set_id
      else dedupPass1 nds σ m set_id

/-- Pass 2 (source lines 818-826): every test-generating node recomputes its
digest and is assigned `dict.get(digest)` — the canonical build when the
digest was registered, Python `None` otherwise (`some none`); nodes that
generate no tests are never assigned the attribute (`none`). -/
def dedupPass2 (σ : Heap) (m : List (String × Nat)) :
    List DedupNode → Option (List (Option (Option Nat)))
  | [] => some []
  | nd :: nds =>
      if nd.generates_tests then
        match getDigestAt σ nd.buildRef with
        | none => none
        | some my_digest =>
            match dedupPass2 σ m nds with
            | none => none
            | some rest => some (some (m.lookup my_digest) :: rest)
      else
        match dedupPass2 σ m nds with
        | none => none
        | some rest => some (none :: rest)

/-- `determine_unique_firmware_builds`: pass 1 then pass 2, returning the
final heap, the digest → canonical-build map, and per node (in traversal
order) the value assigned to `unique_firmware_build`. -/
def determine_unique_firmware_builds (nodes : List DedupNode) (σ : Heap) :
    Option (Heap × List (String × Nat) × List (Option (Option Nat))) := do
  let r1 ← dedupPass1 nodes σ [] 1
  let assigned ← dedupPass2 r1.1 r1.2 nodes
  some (r1.1, r1.2, assigned)

/-- Scenario 1 of the specification: the root defines one module and the
sketch; `x` and `y` are childless subdirectories defining nothing, so they
share the root's build object 0 with `has_dedicated_firmware = False`, while
the root (having children and no test trigger) generates no tests. -/
def heapS : Heap :=
  { lists := fun _ => [moduleCore]
    dlists := fun _ => [moduleCore.getDigest]
    builds := fun _ =>
      { modulesRef := 0, module_digestsRef := 0
        firmware_sketch := some { filename := "root/sketch.ino" }
        path := some "root" }
    nextList := 1
    nextDList := 1
    nextBuild := 1 }

def rootNodeS : DedupNode :=
  { generates_tests := false, has_dedicated_firmware := true, buildRef := 0 }

def xNodeS : DedupNode :=
  { generates_tests := true, has_dedicated_firmware := false, buildRef := 0 }

def yNodeS : DedupNode :=
  { generates_tests := true, has_dedicated_firmware := false, buildRef := 0 }

/-- C1 (evaluation of the code at the failing input): on scenario 1 — root
with modules and sketch, childless `x` and `y` defining nothing — pass 1
registers *no* canonical build (the root generates no tests, `x` and `y` own
no dedicated build), so the map stays empty, no identifier 1 is ever
assigned, and pass 2 assigns Python `None` (`some none`) to both `x` and
`y` instead of the claimed canonical Build Configuration with id 1. -/
theorem determine_unique_misses_inherited_builds :
    determine_unique_firmware_builds [rootNodeS, xNodeS, yNodeS] heapS
      = some (heapS, [], [none, some none, some none]) := rfl
